import Mathlib

/-!
Shallow embedding of `fingerofgod.py` (the "Finger of God" background
auto-clicker) and proofs about its core operations.

The embedding models the OS surface (`IsWindow`, `ScreenToClient`,
`PostMessageW`, `IsWindowVisible`, `GetWindowText`, `EnumWindows`,
`GetCursorPos`, sleeping) as explicit environments of pure functions, and
each operation as a pure function that returns the ordered trace of API
calls it performs.  Time is measured in milliseconds: Python's
`time.sleep(0.01)` is recorded as `ApiEvent.sleep 10`, `time.sleep(0.05)`
as `ApiEvent.sleep 50`.
-/

namespace FingerOfGod

/-- Mirrors `class WindowInfo`: a window handle together with its title. -/
structure WindowInfo where
  hwnd : Int
  title : String
deriving DecidableEq, Repr

/-- Mirrors `class ClickPosition`: a captured global screen coordinate. -/
structure ClickPosition where
  x : Int
  y : Int
deriving DecidableEq, Repr

/-- Mirrors `WindowsAPI.WM_LBUTTONDOWN = 0x0201`. -/
def WM_LBUTTONDOWN : Nat := 0x0201

/-- Mirrors `WindowsAPI.WM_LBUTTONUP = 0x0202`. -/
def WM_LBUTTONUP : Nat := 0x0202

/-- Mirrors `WindowsAPI.WM_RBUTTONDOWN = 0x0204`. -/
def WM_RBUTTONDOWN : Nat := 0x0204

/-- Mirrors `WindowsAPI.WM_RBUTTONUP = 0x0205`. -/
def WM_RBUTTONUP : Nat := 0x0205

/-- One recorded call to the platform layer made by `send_mouse_click`:
either the `ScreenToClient` conversion (screen point and resulting client
point), a `PostMessageW` call (the Bool is the result code the primitive
reported back), or a `time.sleep` in milliseconds. -/
inductive ApiEvent where
  | screenToClient (hwnd x y clientX clientY : Int)
  | postMessage (hwnd : Int) (msg wParam : Nat) (lParam : Int) (result : Bool)
  | sleep (ms : Nat)
deriving DecidableEq, Repr

/-- The one exception `send_mouse_click` can raise:
`raise ValueError("Invalid window handle")`. -/
inductive ClickError where
  | invalidWindowHandle
deriving DecidableEq, Repr

/-- Environment for a single `send_mouse_click` call: the result of
`IsWindow`, the `ScreenToClient` conversion, and the result codes returned
by the successive `PostMessageW` calls (indexed by call order; the Python
code discards them). -/
structure Env where
  isWindow : Int → Bool
  screenToClient : Int → Int → Int → Int × Int
  postResult : Nat → Bool

/-- Mirrors `lParam = (client_y << 16) | (client_x & 0xFFFF)` from
`send_mouse_click`, with Python's arbitrary-precision two's-complement
bitwise semantics carried over to `Int` (`Int.lor`, `Int.land` and `<<<`
are exactly those semantics). -/
def lParamFor (clientX clientY : Int) : Int :=
  Int.lor (clientY <<< (16 : Int)) (Int.land clientX 0xFFFF)

/-- The `n`-th `PostMessageW` call of a `send_mouse_click` invocation,
recording the result code the environment reports for it. -/
def postMessageW (env : Env) (n : Nat) (hwnd : Int) (msg wParam : Nat)
    (lParam : Int) : ApiEvent :=
  ApiEvent.postMessage hwnd msg wParam lParam (env.postResult n)

/-- Mirrors `WindowsAPI.send_mouse_click(hwnd, x, y, click_type)`.
Returns the ordered trace of platform calls, or the raised exception.
Faithful points: the `IsWindow` guard raises before any conversion or
post; the result codes of `PostMessageW` are recorded but never examined;
a `click_type` matching none of the three literals falls through all
branches and returns with no message posted. -/
def send_mouse_click (env : Env) (hwnd x y : Int) (click_type : String) :
    Except ClickError (List ApiEvent) :=
  if ¬ env.isWindow hwnd then
    Except.error ClickError.invalidWindowHandle
  else
    let p := env.screenToClient hwnd x y
    let client_x := p.1
    let client_y := p.2
    let lParam := lParamFor client_x client_y
    let conv := ApiEvent.screenToClient hwnd x y client_x client_y
    if click_type = "Left Click" then
      Except.ok [conv,
        postMessageW env 0 hwnd WM_LBUTTONDOWN 1 lParam,
        ApiEvent.sleep 10,
        postMessageW env 1 hwnd WM_LBUTTONUP 0 lParam]
    else if click_type = "Right Click" then
      Except.ok [conv,
        postMessageW env 0 hwnd WM_RBUTTONDOWN 2 lParam,
        ApiEvent.sleep 10,
        postMessageW env 1 hwnd WM_RBUTTONUP 0 lParam]
    else if click_type = "Double Click" then
      Except.ok [conv,
        postMessageW env 0 hwnd WM_LBUTTONDOWN 1 lParam,
        postMessageW env 1 hwnd WM_LBUTTONUP 0 lParam,
        ApiEvent.sleep 50,
        postMessageW env 2 hwnd WM_LBUTTONDOWN 1 lParam,
        postMessageW env 3 hwnd WM_LBUTTONUP 0 lParam]
    else
      Except.ok [conv]

/-! ## The clicking loop (`AutoClickerApp._clicking_loop`) -/

/-- Environment for a run of `_clicking_loop`, indexed by iteration number:
the value of the shared `self.is_running` flag read by the `while` test at
the top of iteration `i`; the `IsWindow` result of the liveness check at
iteration `i`; the `IsWindow` result of the check inside that iteration's
`send_mouse_click`; the `ScreenToClient` conversion; the `PostMessageW`
result codes (iteration, call index); the value of
`self.click_type_var.get()` read at iteration `i`; and the parsed
`int(self.delay_var.get())` at iteration `i` in milliseconds. -/
structure LoopEnv where
  isRunning : Nat → Bool
  validAtCheck : Nat → Bool
  validAtClick : Nat → Bool
  screenToClient : Int → Int → Int → Int × Int
  postResult : Nat → Nat → Bool
  clickType : Nat → String
  delayMs : Nat → Nat

/-- The single-click environment seen by iteration `i` of the loop. -/
def LoopEnv.at (L : LoopEnv) (i : Nat) : Env :=
  { isWindow := fun _ => L.validAtClick i
    screenToClient := L.screenToClient
    postResult := L.postResult i }

/-- How a run of `_clicking_loop` ends: the `while self.is_running` test
failed (cooperative stop); the liveness check failed and the loop reported
"Target window closed" and hit `break`; an exception escaped to the
`except` clause and was reported as "Clicking error: ..."; or the
simulation fuel ran out with the loop still going. -/
inductive LoopResult where
  | stoppedNormally
  | targetLost
  | clickingError (e : ClickError)
  | outOfFuel
deriving DecidableEq, Repr

/-- The full event trace of iteration `i` of the loop: the events of that
iteration's `send_mouse_click` followed by the `time.sleep(delay_ms/1000)`
(empty click trace if the click raised, in which case the loop never
reaches the sleep). -/
def iterTrace (L : LoopEnv) (hwnd x y : Int) (i : Nat) : List ApiEvent :=
  match send_mouse_click (L.at i) hwnd x y (L.clickType i) with
  | Except.ok evs => evs ++ [ApiEvent.sleep (L.delayMs i)]
  | Except.error _ => []

/-- Mirrors the body of `AutoClickerApp._clicking_loop`, starting at
iteration `i` with `fuel` iterations of simulation budget.  Returns the
per-iteration traces (tagged with their iteration number) and how the run
ended.  Each iteration: (1) `while self.is_running` test, (2) the
`IsWindow` liveness check with report-and-break on failure, (3)
`send_mouse_click` whose exception is caught by the surrounding
`try/except`, (4) the delay sleep. -/
def clicking_loop_aux (L : LoopEnv) (hwnd x y : Int) :
    Nat → Nat → List (Nat × List ApiEvent) × LoopResult
  | _, 0 => ([], LoopResult.outOfFuel)
  | i, fuel + 1 =>
    if ¬ L.isRunning i then
      ([], LoopResult.stoppedNormally)
    else if ¬ L.validAtCheck i then
      ([], LoopResult.targetLost)
    else
      match send_mouse_click (L.at i) hwnd x y (L.clickType i) with
      | Except.error e => ([], LoopResult.clickingError e)
      | Except.ok evs =>
        let rest := clicking_loop_aux L hwnd x y (i + 1) fuel
        ((i, evs ++ [ApiEvent.sleep (L.delayMs i)]) :: rest.1, rest.2)

/-- A run of `_clicking_loop` from its first iteration. -/
def clicking_loop (L : LoopEnv) (hwnd x y : Int) (fuel : Nat) :
    List (Nat × List ApiEvent) × LoopResult :=
  clicking_loop_aux L hwnd x y 0 fuel

/-! ## Window enumeration (`WindowsAPI.enumerate_windows`) -/

/-- Environment for `enumerate_windows`: the handles `EnumWindows` hands to
the callback, in enumeration order, together with the `IsWindowVisible`
and `GetWindowText` results for each handle. -/
structure EnumEnv where
  hwnds : List Int
  visible : Int → Bool
  windowText : Int → String

/-- Mirrors `WindowsAPI.enumerate_windows`: the callback keeps every
visible window whose title is non-empty after stripping whitespace
(`if title.strip():`), then the collected list is sorted with
`sorted(windows, key=lambda w: w.title.lower())`. -/
def enumerate_windows (env : EnumEnv) : List WindowInfo :=
  let windows := env.hwnds.filterMap (fun h =>
    if env.visible h then
      let title := env.windowText h
      if title.trim ≠ "" then some { hwnd := h, title := title } else none
    else none)
  windows.mergeSort (fun a b => a.title.toLower ≤ b.title.toLower)

/-! ## Application state (`AutoClickerApp`) -/

/-- The `AutoClickerApp` fields the core operations touch, plus whether the
global `keyboard` F8 hotkey is currently registered. -/
structure AppState where
  is_running : Bool
  click_position : Option ClickPosition
  selected_window : Option WindowInfo
  position_selection_active : Bool
  hotkey_registered : Bool
deriving DecidableEq, Repr

/-- How `AutoClickerApp._start_clicking` returned: one of the three
synchronous validation rejections (a `messagebox` warning or error
followed by `return`), or the start path that sets `is_running` and
launches the clicking thread. -/
inductive StartOutcome where
  | warnedNoWindow
  | warnedNoPosition
  | erroredInvalidWindow
  | started
deriving DecidableEq, Repr

/-- Mirrors `AutoClickerApp._start_clicking`.  Takes the `IsWindow`
predicate and the current state; returns the outcome, the new state, and
whether `threading.Thread(...).start()` was reached. -/
def start_clicking (isWindowValid : Int → Bool) (s : AppState) :
    StartOutcome × AppState × Bool :=
  match s.selected_window with
  | none => (StartOutcome.warnedNoWindow, s, false)
  | some w =>
    match s.click_position with
    | none => (StartOutcome.warnedNoPosition, s, false)
    | some _ =>
      if ¬ isWindowValid w.hwnd then
        (StartOutcome.erroredInvalidWindow, s, false)
      else
        (StartOutcome.started, { s with is_running := true }, true)

/-- Mirrors `AutoClickerApp.start_position_selection`: a no-op when
selection is already active, otherwise arms selection and registers the
global F8 hotkey (`keyboard.add_hotkey`). -/
def start_position_selection (s : AppState) : AppState :=
  if s.position_selection_active then s
  else { s with position_selection_active := true, hotkey_registered := true }

/-- Mirrors `AutoClickerApp._handle_position_hotkey` for one activation
with the given `GetCursorPos` sample: when armed it stores the sampled
cursor position, disarms, and removes the hotkey; when not armed it
changes nothing. -/
def handle_position_hotkey (cursor : Int × Int) (s : AppState) : AppState :=
  if s.position_selection_active then
    { s with click_position := some { x := cursor.1, y := cursor.2 }
             position_selection_active := false
             hotkey_registered := false }
  else s

/-! ## Concrete environments used by witnesses and counterexamples -/

/-- A click environment in which the handle is valid, `ScreenToClient` is
the identity and every `PostMessageW` succeeds. -/
def envTrue : Env :=
  { isWindow := fun _ => true
    screenToClient := fun _ x y => (x, y)
    postResult := fun _ => true }

/-- A click environment in which the handle is valid but every
`PostMessageW` call reports failure. -/
def envPostFail : Env :=
  { isWindow := fun _ => true
    screenToClient := fun _ x y => (x, y)
    postResult := fun _ => false }

/-- A click environment in which `IsWindow` reports every handle dead. -/
def envDead : Env :=
  { isWindow := fun _ => false
    screenToClient := fun _ x y => (x, y)
    postResult := fun _ => true }

/-- The application state right after startup: not running, nothing
selected, selection not armed. -/
def idleEmptyState : AppState :=
  { is_running := false
    click_position := none
    selected_window := none
    position_selection_active := false
    hotkey_registered := false }

/-- A loop environment whose target window dies at iteration 1: running
flag always on, liveness check true only at iteration 0. -/
def loopEnvDies : LoopEnv :=
  { isRunning := fun _ => true
    validAtCheck := fun i => i == 0
    validAtClick := fun _ => true
    screenToClient := fun _ x y => (x, y)
    postResult := fun _ _ => true
    clickType := fun _ => "Left Click"
    delayMs := fun _ => 100 }

/-- A loop environment in which `stop()` lands between iterations 0 and 1:
the `is_running` flag reads true at iteration 0 and false from iteration 1
on, with the window alive throughout. -/
def loopEnvStopped : LoopEnv :=
  { isRunning := fun i => i == 0
    validAtCheck := fun _ => true
    validAtClick := fun _ => true
    screenToClient := fun _ x y => (x, y)
    postResult := fun _ _ => true
    clickType := fun _ => "Left Click"
    delayMs := fun _ => 100 }

/-! ## Arithmetic characterization of the packed `lParam` -/

theorem natLand_ffff (n : ℕ) : n &&& 65535 = n % 65536 := by
  have h := Nat.and_pow_two_sub_one_eq_mod n 16
  norm_num at h
  exact h

theorem natTestBit_ffff (i : ℕ) : Nat.testBit 65535 i = decide (i < 16) := by
  have h := Nat.testBit_two_pow_sub_one 16 i
  norm_num at h
  exact h

theorem natLdiff_ffff (n : ℕ) : Nat.ldiff 65535 n = 65535 - n % 65536 := by
  have hr : n % 65536 < 65536 := Nat.mod_lt _ (by norm_num)
  apply Nat.eq_of_testBit_eq
  intro i
  have h3 : (65535 : ℕ) - n % 65536 = 2 ^ 16 - (n % 65536 + 1) := by omega
  have h4 := Nat.testBit_two_pow_sub_succ (x := n % 65536) (n := 16) (by norm_num [hr]) i
  have h5 := Nat.testBit_mod_two_pow n 16 i
  rw [Nat.testBit_ldiff, natTestBit_ffff, h3, h4, h5]
  by_cases h : i < 16 <;> simp [h]

theorem natLor_mul_add (a r : ℕ) (hr : r < 65536) :
    a * 65536 ||| r = a * 65536 + r := by
  apply Nat.eq_of_testBit_eq
  intro j
  have e : a * 65536 = 2 ^ 16 * a := by ring
  have e0 : a * 65536 = 2 ^ 16 * a + 0 := by omega
  have hb : (0 : ℕ) < 2 ^ 16 := by norm_num
  have hr16 : r < 2 ^ 16 := by norm_num [hr]
  have h1 : Nat.testBit (a * 65536) j = if j < 16 then Nat.testBit 0 j else Nat.testBit a (j - 16) := by
    rw [e0]
    exact Nat.testBit_mul_pow_two_add a hb j
  have h2 : Nat.testBit (a * 65536 + r) j = if j < 16 then Nat.testBit r j else Nat.testBit a (j - 16) := by
    rw [show a * 65536 + r = 2 ^ 16 * a + r by omega]
    exact Nat.testBit_mul_pow_two_add a hr16 j
  rw [Nat.testBit_lor, h1, h2]
  by_cases h : j < 16
  · simp [h]
  · have hrj : Nat.testBit r j = false := by
      apply Nat.testBit_lt_two_pow
      calc r < 2 ^ 16 := hr16
        _ ≤ 2 ^ j := Nat.pow_le_pow_right (by norm_num) (by omega)
    simp [h, hrj]

theorem natLdiff_mul_add (a r : ℕ) (hr : r < 65536) :
    Nat.ldiff (a * 65536 + 65535) r = a * 65536 + (65535 - r) := by
  apply Nat.eq_of_testBit_eq
  intro j
  have hffff : (65535 : ℕ) < 2 ^ 16 := by norm_num
  have hr16 : r < 2 ^ 16 := by norm_num [hr]
  have hsub : (65535 : ℕ) - r < 2 ^ 16 := by omega
  have h1 : Nat.testBit (a * 65536 + 65535) j
      = if j < 16 then Nat.testBit 65535 j else Nat.testBit a (j - 16) := by
    rw [show a * 65536 + 65535 = 2 ^ 16 * a + 65535 by omega]
    exact Nat.testBit_mul_pow_two_add a hffff j
  have h2 : Nat.testBit (a * 65536 + (65535 - r)) j
      = if j < 16 then Nat.testBit (65535 - r) j else Nat.testBit a (j - 16) := by
    rw [show a * 65536 + (65535 - r) = 2 ^ 16 * a + (65535 - r) by omega]
    exact Nat.testBit_mul_pow_two_add a hsub j
  have h3 : Nat.testBit (65535 - r) j = (decide (j < 16) && !Nat.testBit r j) := by
    rw [show (65535 : ℕ) - r = 2 ^ 16 - (r + 1) by omega]
    exact Nat.testBit_two_pow_sub_succ hr16 j
  rw [Nat.testBit_ldiff, h1, h2, h3, natTestBit_ffff]
  by_cases h : j < 16
  · simp [h]
  · have hrj : Nat.testBit r j = false := by
      apply Nat.testBit_lt_two_pow
      calc r < 2 ^ 16 := hr16
        _ ≤ 2 ^ j := Nat.pow_le_pow_right (by norm_num) (by omega)
    simp [h, hrj]

theorem intLand_ffff (x : ℤ) : Int.land x 65535 = x % 65536 := by
  cases x with
  | ofNat n =>
    have h : Int.land (Int.ofNat n) 65535 = ((n &&& 65535 : ℕ) : ℤ) := rfl
    rw [h, natLand_ffff, Int.ofNat_eq_coe, Int.natCast_mod]
    norm_num
  | negSucc n =>
    have h : Int.land (Int.negSucc n) 65535 = ((Nat.ldiff 65535 n : ℕ) : ℤ) := rfl
    rw [h, natLdiff_ffff]
    have hr : n % 65536 < 65536 := Nat.mod_lt _ (by norm_num)
    have hm : ((n % 65536 : ℕ) : ℤ) = (n : ℤ) % 65536 := by
      push_cast
      ring
    have hneg : Int.negSucc n = -(n : ℤ) - 1 := by
      rw [Int.negSucc_eq]
      ring
    omega

theorem intShiftLeft_16 (y : ℤ) : y <<< (16 : ℤ) = y * 65536 := by
  have h := Int.shiftLeft_eq_mul_pow y 16
  norm_num at h
  exact h

theorem intLor_mul_add (y m : ℤ) (h0 : 0 ≤ m) (h1 : m < 65536) :
    Int.lor (y * 65536) m = y * 65536 + m := by
  obtain ⟨r, rfl⟩ : ∃ r : ℕ, m = Int.ofNat r :=
    ⟨m.toNat, (Int.toNat_of_nonneg h0).symm⟩
  have hr : r < 65536 := by
    rw [Int.ofNat_eq_coe] at h1
    exact_mod_cast h1
  cases y with
  | ofNat a =>
    have e : (Int.ofNat a) * 65536 = Int.ofNat (a * 65536) := by
      simp [Int.ofNat_eq_coe]
    rw [e]
    have h : Int.lor (Int.ofNat (a * 65536)) (Int.ofNat r) = ((a * 65536 ||| r : ℕ) : ℤ) := rfl
    rw [h, natLor_mul_add a r hr]
    simp [Int.ofNat_eq_coe]
  | negSucc a =>
    have e : (Int.negSucc a) * 65536 = Int.negSucc (a * 65536 + 65535) := by
      have h1' : Int.negSucc a = -(a : ℤ) - 1 := by
        rw [Int.negSucc_eq]
        ring
      have h2' : Int.negSucc (a * 65536 + 65535) = -((a * 65536 + 65535 : ℕ) : ℤ) - 1 := by
        rw [Int.negSucc_eq]
        ring
      rw [h1', h2']
      push_cast
      ring
    rw [e]
    have h : Int.lor (Int.negSucc (a * 65536 + 65535)) (Int.ofNat r)
        = Int.negSucc (Nat.ldiff (a * 65536 + 65535) r) := rfl
    rw [h, natLdiff_mul_add a r hr]
    have hd : (65535 - r) + r = 65535 := by omega
    have hn0 : Int.negSucc a = -(a : ℤ) - 1 := by
      rw [Int.negSucc_eq]
      ring
    have hn1 : Int.negSucc (a * 65536 + 65535) = -((a : ℤ) * 65536 + 65535) - 1 := by
      rw [Int.negSucc_eq]
      push_cast
      ring
    have hn2 : Int.negSucc (a * 65536 + (65535 - r))
        = -((a : ℤ) * 65536 + ((65535 - r : ℕ) : ℤ)) - 1 := by
      rw [Int.negSucc_eq]
      push_cast
      ring
    have ho : Int.ofNat r = (r : ℤ) := rfl
    omega

/-- The packed click position: its value is `clientY * 2^16` plus the low
16 bits of `clientX`, exactly the MAKELPARAM packing the Python source
builds with `(client_y << 16) | (client_x & 0xFFFF)`. -/
theorem lParamFor_eq (cx cy : ℤ) : lParamFor cx cy = cy * 65536 + cx % 65536 := by
  unfold lParamFor
  rw [intShiftLeft_16, intLand_ffff]
  exact intLor_mul_add cy (cx % 65536) (Int.emod_nonneg cx (by norm_num))
    (Int.emod_lt_of_pos cx (by norm_num))

/-! ## Click synthesis: shapes of the emitted traces -/

/-- Helper: with a live handle, `send_mouse_click` returns normally for
every click type (the only raise in its body is the `IsWindow` guard). -/
theorem send_mouse_click_ok_of_valid (env : Env) (hwnd x y : Int) (ct : String)
    (h : env.isWindow hwnd = true) :
    ∃ evs, send_mouse_click env hwnd x y ct = Except.ok evs := by
  unfold send_mouse_click
  rw [h]
  simp only [not_true_eq_false, if_false]
  by_cases h1 : ct = "Left Click"
  · exact ⟨_, by rw [if_pos h1]⟩
  · rw [if_neg h1]
    by_cases h2 : ct = "Right Click"
    · exact ⟨_, by rw [if_pos h2]⟩
    · rw [if_neg h2]
      by_cases h3 : ct = "Double Click"
      · exact ⟨_, by rw [if_pos h3]⟩
      · rw [if_neg h3]
        exact ⟨_, rfl⟩

/-- C1: with a valid handle, `"Double Click"` emits exactly the 4 messages
down, up, down, up for the left button with the 50ms wait between the
second and third posts and no wait inside either pair, while
`"Left Click"` and `"Right Click"` emit exactly down then up of the
corresponding button with a 10ms wait in between (the Python sleeps are
`time.sleep(0.05)` and `time.sleep(0.01)`, i.e. at least 50ms resp. 10ms
of real wall-clock gap). -/
theorem send_mouse_click_traces (env : Env) (hwnd x y : Int)
    (h : env.isWindow hwnd = true) :
    send_mouse_click env hwnd x y "Double Click" = Except.ok
      [ApiEvent.screenToClient hwnd x y (env.screenToClient hwnd x y).1 (env.screenToClient hwnd x y).2,
       ApiEvent.postMessage hwnd WM_LBUTTONDOWN 1
         (lParamFor (env.screenToClient hwnd x y).1 (env.screenToClient hwnd x y).2) (env.postResult 0),
       ApiEvent.postMessage hwnd WM_LBUTTONUP 0
         (lParamFor (env.screenToClient hwnd x y).1 (env.screenToClient hwnd x y).2) (env.postResult 1),
       ApiEvent.sleep 50,
       ApiEvent.postMessage hwnd WM_LBUTTONDOWN 1
         (lParamFor (env.screenToClient hwnd x y).1 (env.screenToClient hwnd x y).2) (env.postResult 2),
       ApiEvent.postMessage hwnd WM_LBUTTONUP 0
         (lParamFor (env.screenToClient hwnd x y).1 (env.screenToClient hwnd x y).2) (env.postResult 3)] ∧
    send_mouse_click env hwnd x y "Left Click" = Except.ok
      [ApiEvent.screenToClient hwnd x y (env.screenToClient hwnd x y).1 (env.screenToClient hwnd x y).2,
       ApiEvent.postMessage hwnd WM_LBUTTONDOWN 1
         (lParamFor (env.screenToClient hwnd x y).1 (env.screenToClient hwnd x y).2) (env.postResult 0),
       ApiEvent.sleep 10,
       ApiEvent.postMessage hwnd WM_LBUTTONUP 0
         (lParamFor (env.screenToClient hwnd x y).1 (env.screenToClient hwnd x y).2) (env.postResult 1)] ∧
    send_mouse_click env hwnd x y "Right Click" = Except.ok
      [ApiEvent.screenToClient hwnd x y (env.screenToClient hwnd x y).1 (env.screenToClient hwnd x y).2,
       ApiEvent.postMessage hwnd WM_RBUTTONDOWN 2
         (lParamFor (env.screenToClient hwnd x y).1 (env.screenToClient hwnd x y).2) (env.postResult 0),
       ApiEvent.sleep 10,
       ApiEvent.postMessage hwnd WM_RBUTTONUP 0
         (lParamFor (env.screenToClient hwnd x y).1 (env.screenToClient hwnd x y).2) (env.postResult 1)] := by
  refine ⟨?_, ?_, ?_⟩ <;> simp [send_mouse_click, postMessageW, h]

/-- Witness for C1 at `envTrue`, handle 1, screen point (2,3): the client
point is (2,3) and the packed parameter is `3 * 65536 + 2 = 196610`. -/
theorem send_mouse_click_traces_witness :
    send_mouse_click envTrue 1 2 3 "Double Click" = Except.ok
      [ApiEvent.screenToClient 1 2 3 2 3,
       ApiEvent.postMessage 1 WM_LBUTTONDOWN 1 196610 true,
       ApiEvent.postMessage 1 WM_LBUTTONUP 0 196610 true,
       ApiEvent.sleep 50,
       ApiEvent.postMessage 1 WM_LBUTTONDOWN 1 196610 true,
       ApiEvent.postMessage 1 WM_LBUTTONUP 0 196610 true] ∧
    send_mouse_click envTrue 1 2 3 "Left Click" = Except.ok
      [ApiEvent.screenToClient 1 2 3 2 3,
       ApiEvent.postMessage 1 WM_LBUTTONDOWN 1 196610 true,
       ApiEvent.sleep 10,
       ApiEvent.postMessage 1 WM_LBUTTONUP 0 196610 true] ∧
    send_mouse_click envTrue 1 2 3 "Right Click" = Except.ok
      [ApiEvent.screenToClient 1 2 3 2 3,
       ApiEvent.postMessage 1 WM_RBUTTONDOWN 2 196610 true,
       ApiEvent.sleep 10,
       ApiEvent.postMessage 1 WM_RBUTTONUP 0 196610 true] := by
  have h := send_mouse_click_traces envTrue 1 2 3 rfl
  have hl : lParamFor 2 3 = 196610 := by
    rw [lParamFor_eq]
    decide
  simpa [envTrue, hl] using h

/-- C4: if `IsWindow` reports the handle dead at click time, the call
raises `ValueError("Invalid window handle")` having performed no platform
call at all: no `ScreenToClient` conversion and no `PostMessageW`
(the returned error carries an empty trace of events). -/
theorem send_mouse_click_invalid_short_circuits (env : Env) (hwnd x y : Int)
    (ct : String) (h : env.isWindow hwnd = false) :
    send_mouse_click env hwnd x y ct = Except.error ClickError.invalidWindowHandle := by
  unfold send_mouse_click
  rw [h]
  rfl

/-- Witness for C4 at `envDead` (every handle dead). -/
theorem send_mouse_click_invalid_short_circuits_witness :
    send_mouse_click envDead 7 2 3 "Left Click"
      = Except.error ClickError.invalidWindowHandle :=
  send_mouse_click_invalid_short_circuits envDead 7 2 3 "Left Click" rfl

/-- C10: with a valid handle, a `click_type` that is none of the three
recognized literals falls through every branch: the handle check and the
coordinate conversion still happen, but zero messages are posted and the
call returns normally with no error. -/
theorem send_mouse_click_unknown_kind (env : Env) (hwnd x y : Int) (ct : String)
    (h : env.isWindow hwnd = true)
    (h1 : ct ≠ "Left Click") (h2 : ct ≠ "Right Click") (h3 : ct ≠ "Double Click") :
    send_mouse_click env hwnd x y ct = Except.ok
      [ApiEvent.screenToClient hwnd x y
        (env.screenToClient hwnd x y).1 (env.screenToClient hwnd x y).2] := by
  simp [send_mouse_click, h, h1, h2, h3]

/-- Witness for C10 with the unrecognized kind `"Middle Click"`. -/
theorem send_mouse_click_unknown_kind_witness :
    send_mouse_click envTrue 1 2 3 "Middle Click"
      = Except.ok [ApiEvent.screenToClient 1 2 3 2 3] := by
  have h := send_mouse_click_unknown_kind envTrue 1 2 3 "Middle Click" rfl
    (by decide) (by decide) (by decide)
  simpa [envTrue] using h

/-- Counterexample to C3: in `envPostFail` every `PostMessageW` reports
failure (the recorded result flag of each posted message is `false`), yet
`send_mouse_click` returns `Except.ok` — the Python code discards the
return value of `PostMessageW`, so a reported delivery failure is ignored
rather than raised. -/
theorem send_mouse_click_ok_despite_post_failure :
    send_mouse_click envPostFail 2 3 4 "Left Click" = Except.ok
      [ApiEvent.screenToClient 2 3 4 3 4,
       ApiEvent.postMessage 2 WM_LBUTTONDOWN 1 262147 false,
       ApiEvent.sleep 10,
       ApiEvent.postMessage 2 WM_LBUTTONUP 0 262147 false] := by
  have hl : lParamFor 3 4 = 262147 := by
    rw [lParamFor_eq]
    decide
  simp [send_mouse_click, postMessageW, envPostFail, hl]

/-- C3 as amended: `send_mouse_click` never inspects the result codes the
message-post primitive reports; for every live handle it returns normally
no matter which posts failed (no delivery error exists in the code). -/
theorem send_mouse_click_ignores_post_results (env : Env) (hwnd x y : Int)
    (ct : String) (h : env.isWindow hwnd = true) :
    (send_mouse_click env hwnd x y ct).isOk = true := by
  obtain ⟨evs, hevs⟩ := send_mouse_click_ok_of_valid env hwnd x y ct h
  rw [hevs]
  rfl

/-- Witness for the amended C3: all posts fail in `envPostFail`, and the
click still reports success. -/
theorem send_mouse_click_ignores_post_results_witness :
    (send_mouse_click envPostFail 2 3 4 "Right Click").isOk = true :=
  send_mouse_click_ignores_post_results envPostFail 2 3 4 "Right Click" rfl

/-! ## The packed position parameter of every posted message -/

/-- Helper: every `postMessage` event in a successful `send_mouse_click`
trace carries the packed parameter built from that call's client point. -/
theorem post_lParam_of_ok (env : Env) (hwnd x y : Int) (ct : String)
    (evs : List ApiEvent) (h : send_mouse_click env hwnd x y ct = Except.ok evs)
    (a : Int) (m w : Nat) (lp : Int) (r : Bool)
    (hmem : ApiEvent.postMessage a m w lp r ∈ evs) :
    lp = lParamFor (env.screenToClient hwnd x y).1 (env.screenToClient hwnd x y).2 := by
  by_cases hw : env.isWindow hwnd
  · unfold send_mouse_click at h
    rw [hw] at h
    simp only [not_true_eq_false, if_false] at h
    by_cases h1 : ct = "Left Click"
    · rw [if_pos h1] at h
      cases h
      simp only [postMessageW, List.mem_cons, List.not_mem_nil, or_false] at hmem
      rcases hmem with h | h | h | h <;> simp_all
    · rw [if_neg h1] at h
      by_cases h2 : ct = "Right Click"
      · rw [if_pos h2] at h
        cases h
        simp only [postMessageW, List.mem_cons, List.not_mem_nil, or_false] at hmem
        rcases hmem with h | h | h | h <;> simp_all
      · rw [if_neg h2] at h
        by_cases h3 : ct = "Double Click"
        · rw [if_pos h3] at h
          cases h
          simp only [postMessageW, List.mem_cons, List.not_mem_nil, or_false] at hmem
          rcases hmem with h | h | h | h | h | h <;> simp_all
        · rw [if_neg h3] at h
          cases h
          simp only [List.mem_cons, List.not_mem_nil, or_false] at hmem
          simp_all
  · simp [send_mouse_click, hw] at h

/-- C8: the single position parameter of every message posted by a click
encodes the client x coordinate in its low 16 bits (its value modulo
`2^16` equals `client_x` modulo `2^16`) and the client y coordinate in the
bits above them (its value divided by `2^16` is exactly `client_y`). -/
theorem posted_lParam_encodes_client_point (env : Env) (hwnd x y : Int)
    (ct : String) (evs : List ApiEvent)
    (h : send_mouse_click env hwnd x y ct = Except.ok evs)
    (a : Int) (m w : Nat) (lp : Int) (r : Bool)
    (hmem : ApiEvent.postMessage a m w lp r ∈ evs) :
    lp % 65536 = (env.screenToClient hwnd x y).1 % 65536 ∧
    lp / 65536 = (env.screenToClient hwnd x y).2 := by
  have hlp := post_lParam_of_ok env hwnd x y ct evs h a m w lp r hmem
  rw [hlp, lParamFor_eq]
  omega

/-- Witness for C8: the first posted message of a left click at handle 1,
screen point (2,3) in `envTrue` has parameter `lParamFor 2 3`, whose low
16 bits are 2 and whose high part is 3. -/
theorem posted_lParam_encodes_client_point_witness :
    lParamFor 2 3 % 65536 = 2 % 65536 ∧ lParamFor 2 3 / 65536 = 3 :=
  posted_lParam_encodes_client_point envTrue 1 2 3 "Left Click"
    [ApiEvent.screenToClient 1 2 3 2 3,
     ApiEvent.postMessage 1 WM_LBUTTONDOWN 1 (lParamFor 2 3) true,
     ApiEvent.sleep 10,
     ApiEvent.postMessage 1 WM_LBUTTONUP 0 (lParamFor 2 3) true]
    (by simp [send_mouse_click, postMessageW, envTrue])
    1 WM_LBUTTONDOWN 1 (lParamFor 2 3) true (by simp)

/-! ## The clicking loop: liveness failure and cooperative stop -/

/-- Helper: a run of the loop starting at iteration `s` that first sees a
dead liveness check at iteration `i` executes exactly the complete
iterations `s, …, i-1` and ends with the `targetLost` report. -/
theorem clicking_loop_aux_targetLost (L : LoopEnv) (hwnd x y : Int) (i : Nat) :
    ∀ s fuel : Nat, s ≤ i → i - s < fuel →
    (∀ j, s ≤ j → j ≤ i → L.isRunning j = true) →
    (∀ j, s ≤ j → j < i → L.validAtCheck j = true) →
    (∀ j, s ≤ j → j < i → L.validAtClick j = true) →
    L.validAtCheck i = false →
    clicking_loop_aux L hwnd x y s fuel
      = ((List.range' s (i - s)).map (fun j => (j, iterTrace L hwnd x y j)),
         LoopResult.targetLost) := by
  intro s fuel
  induction fuel generalizing s with
  | zero =>
    intro _ hfuel
    omega
  | succ fuel ih =>
    intro hsi hfuel hrun hvc hvk hstop
    rcases Nat.eq_or_lt_of_le hsi with heq | hlt
    · subst heq
      have hr : L.isRunning s = true := hrun s le_rfl le_rfl
      simp [clicking_loop_aux, hr, hstop]
    · have hr : L.isRunning s = true := hrun s le_rfl (le_of_lt hlt)
      have hc : L.validAtCheck s = true := hvc s le_rfl hlt
      have hk : (L.at s).isWindow hwnd = true := by
        simp [LoopEnv.at, hvk s le_rfl hlt]
      obtain ⟨evs, hevs⟩ := send_mouse_click_ok_of_valid (L.at s) hwnd x y (L.clickType s) hk
      have ihs := ih (s + 1) hlt (by omega)
        (fun j h1 h2 => hrun j (by omega) h2)
        (fun j h1 h2 => hvc j (by omega) h2)
        (fun j h1 h2 => hvk j (by omega) h2)
        hstop
      rw [show i - s = (i - (s + 1)) + 1 by omega, List.range'_succ]
      have ht : iterTrace L hwnd x y s = evs ++ [ApiEvent.sleep (L.delayMs s)] := by
        simp [iterTrace, hevs]
      simp only [clicking_loop_aux, hr, hc, hevs, not_true_eq_false, if_false,
        Bool.false_eq_true, not_false_eq_true, if_true, List.map_cons, ihs, ht]

/-- Helper: a run of the loop starting at iteration `s` that first reads
the `is_running` flag as false at iteration `i` executes exactly the
complete iterations `s, …, i-1` and exits normally. -/
theorem clicking_loop_aux_stopped (L : LoopEnv) (hwnd x y : Int) (i : Nat) :
    ∀ s fuel : Nat, s ≤ i → i - s < fuel →
    (∀ j, s ≤ j → j < i → L.isRunning j = true) →
    L.isRunning i = false →
    (∀ j, s ≤ j → j < i → L.validAtCheck j = true) →
    (∀ j, s ≤ j → j < i → L.validAtClick j = true) →
    clicking_loop_aux L hwnd x y s fuel
      = ((List.range' s (i - s)).map (fun j => (j, iterTrace L hwnd x y j)),
         LoopResult.stoppedNormally) := by
  intro s fuel
  induction fuel generalizing s with
  | zero =>
    intro _ hfuel
    omega
  | succ fuel ih =>
    intro hsi hfuel hrun hstop hvc hvk
    rcases Nat.eq_or_lt_of_le hsi with heq | hlt
    · subst heq
      simp [clicking_loop_aux, hstop]
    · have hr : L.isRunning s = true := hrun s le_rfl hlt
      have hc : L.validAtCheck s = true := hvc s le_rfl hlt
      have hk : (L.at s).isWindow hwnd = true := by
        simp [LoopEnv.at, hvk s le_rfl hlt]
      obtain ⟨evs, hevs⟩ := send_mouse_click_ok_of_valid (L.at s) hwnd x y (L.clickType s) hk
      have ihs := ih (s + 1) hlt (by omega)
        (fun j h1 h2 => hrun j (by omega) h2)
        hstop
        (fun j h1 h2 => hvc j (by omega) h2)
        (fun j h1 h2 => hvk j (by omega) h2)
      rw [show i - s = (i - (s + 1)) + 1 by omega, List.range'_succ]
      have ht : iterTrace L hwnd x y s = evs ++ [ApiEvent.sleep (L.delayMs s)] := by
        simp [iterTrace, hevs]
      simp only [clicking_loop_aux, hr, hc, hevs, not_true_eq_false, if_false,
        Bool.false_eq_true, not_false_eq_true, if_true, List.map_cons, ihs, ht]

/-- C2: a run of `_clicking_loop` whose liveness check fails for the first
time at iteration boundary `i` (flag still on, window alive at every
earlier iteration) stops within that iteration with the "Target window
closed" report: its result is `targetLost`, its trace is exactly the
complete iterations `0, …, i-1`, and in particular no click delivery is
attempted at or after iteration `i`. -/
theorem clicking_loop_reports_targetLost (L : LoopEnv) (hwnd x y : Int)
    (i fuel : Nat) (hfuel : i < fuel)
    (hrun : ∀ j, j ≤ i → L.isRunning j = true)
    (hvc : ∀ j, j < i → L.validAtCheck j = true)
    (hvk : ∀ j, j < i → L.validAtClick j = true)
    (hdead : L.validAtCheck i = false) :
    (clicking_loop L hwnd x y fuel).2 = LoopResult.targetLost ∧
    (clicking_loop L hwnd x y fuel).1
      = (List.range i).map (fun j => (j, iterTrace L hwnd x y j)) ∧
    ∀ p ∈ (clicking_loop L hwnd x y fuel).1, p.1 < i := by
  have h := clicking_loop_aux_targetLost L hwnd x y i 0 fuel (Nat.zero_le i) (by omega)
    (fun j _ h2 => hrun j h2) (fun j _ h2 => hvc j h2) (fun j _ h2 => hvk j h2) hdead
  have hr : clicking_loop L hwnd x y fuel
      = ((List.range i).map (fun j => (j, iterTrace L hwnd x y j)),
         LoopResult.targetLost) := by
    rw [clicking_loop, h, List.range_eq_range', Nat.sub_zero]
  refine ⟨by rw [hr], by rw [hr], ?_⟩
  rw [hr]
  intro p hp
  simp only [List.mem_map, List.mem_range] at hp
  obtain ⟨j, hj, rfl⟩ := hp
  simpa using hj

/-- Witness for C2: in `loopEnvDies` the window dies at iteration 1; the
run does exactly one complete click iteration and reports target lost. -/
theorem clicking_loop_reports_targetLost_witness :
    (clicking_loop loopEnvDies 5 10 20 3).2 = LoopResult.targetLost ∧
    (clicking_loop loopEnvDies 5 10 20 3).1
      = (List.range 1).map (fun j => (j, iterTrace loopEnvDies 5 10 20 j)) ∧
    ∀ p ∈ (clicking_loop loopEnvDies 5 10 20 3).1, p.1 < 1 :=
  clicking_loop_reports_targetLost loopEnvDies 5 10 20 1 3 (by decide)
    (fun j _ => rfl)
    (fun j hj => by
      have hj0 : j = 0 := by omega
      subst hj0
      rfl)
    (fun j _ => rfl)
    rfl

/-- C5: a run of `_clicking_loop` that reads the `is_running` flag as
false for the first time at the top of iteration `i` (a `stop()` request
landing during iteration `i-1`) exits there: the result is the normal
stop, the trace is exactly the complete iterations `0, …, i-1` — every
started click delivery ran to completion, none is truncated — and no
click is delivered at or after iteration `i`. -/
theorem clicking_loop_stops_cooperatively (L : LoopEnv) (hwnd x y : Int)
    (i fuel : Nat) (hfuel : i < fuel)
    (hrun : ∀ j, j < i → L.isRunning j = true)
    (hstop : L.isRunning i = false)
    (hvc : ∀ j, j < i → L.validAtCheck j = true)
    (hvk : ∀ j, j < i → L.validAtClick j = true) :
    (clicking_loop L hwnd x y fuel).2 = LoopResult.stoppedNormally ∧
    (clicking_loop L hwnd x y fuel).1
      = (List.range i).map (fun j => (j, iterTrace L hwnd x y j)) ∧
    ∀ p ∈ (clicking_loop L hwnd x y fuel).1, p.1 < i := by
  have h := clicking_loop_aux_stopped L hwnd x y i 0 fuel (Nat.zero_le i) (by omega)
    (fun j _ h2 => hrun j h2) hstop (fun j _ h2 => hvc j h2) (fun j _ h2 => hvk j h2)
  have hr : clicking_loop L hwnd x y fuel
      = ((List.range i).map (fun j => (j, iterTrace L hwnd x y j)),
         LoopResult.stoppedNormally) := by
    rw [clicking_loop, h, List.range_eq_range', Nat.sub_zero]
  refine ⟨by rw [hr], by rw [hr], ?_⟩
  rw [hr]
  intro p hp
  simp only [List.mem_map, List.mem_range] at hp
  obtain ⟨j, hj, rfl⟩ := hp
  simpa using hj

/-- Witness for C5: in `loopEnvStopped` the stop request is observed at
the top of iteration 1; exactly one complete click iteration ran. -/
theorem clicking_loop_stops_cooperatively_witness :
    (clicking_loop loopEnvStopped 5 10 20 3).2 = LoopResult.stoppedNormally ∧
    (clicking_loop loopEnvStopped 5 10 20 3).1
      = (List.range 1).map (fun j => (j, iterTrace loopEnvStopped 5 10 20 j)) ∧
    ∀ p ∈ (clicking_loop loopEnvStopped 5 10 20 3).1, p.1 < 1 :=
  clicking_loop_stops_cooperatively loopEnvStopped 5 10 20 1 3 (by decide)
    (fun j hj => by
      have hj0 : j = 0 := by omega
      subst hj0
      rfl)
    rfl
    (fun j _ => rfl)
    (fun j _ => rfl)

/-! ## Window enumeration: exactness and ordering -/

/-- Helper: the collection phase of `enumerate_windows` keeps, in
enumeration order, exactly the visible handles whose title is non-empty
after trimming, each paired with its title. -/
theorem enumerate_collect_eq (env : EnumEnv) (l : List Int) :
    (l.filterMap (fun h =>
        if env.visible h then
          let title := env.windowText h
          if title.trim ≠ "" then some { hwnd := h, title := title } else none
        else none))
      = ((l.filter (fun h => env.visible h && !(env.windowText h).trim.isEmpty)).map
          (fun h => ({ hwnd := h, title := env.windowText h } : WindowInfo))) := by
  induction l with
  | nil => rfl
  | cons a l ih =>
    by_cases hv : env.visible a
    · by_cases ht : (env.windowText a).trim = ""
      · rw [List.filterMap_cons_none (by simp [hv, ht]), List.filter_cons]
        have hb : (env.visible a && !(env.windowText a).trim.isEmpty) = false := by
          simp [hv, ht, show "".isEmpty = true from rfl]
        rw [hb]
        simp only [Bool.false_eq_true, if_false]
        exact ih
      · have hsome : (if env.visible a then
            (let title := env.windowText a
             if title.trim ≠ "" then some { hwnd := a, title := title } else none)
          else none) = some ({ hwnd := a, title := env.windowText a } : WindowInfo) := by
          simp [hv, ht]
        rw [@List.filterMap_cons_some Int WindowInfo
            (fun h =>
              if env.visible h then
                (let title := env.windowText h
                 if title.trim ≠ "" then some { hwnd := h, title := title } else none)
              else none)
            a l { hwnd := a, title := env.windowText a } hsome, List.filter_cons]
        have h1 : (env.windowText a).trim.isEmpty = false := by
          rw [Bool.eq_false_iff]
          intro h
          exact ht ((String.isEmpty_iff _).mp h)
        have hb : (env.visible a && !(env.windowText a).trim.isEmpty) = true := by
          simp [hv, h1]
        rw [hb]
        simp only [if_true, List.map_cons]
        rw [ih]
    · rw [List.filterMap_cons_none (by simp [hv]), List.filter_cons]
      have hb : (env.visible a && !(env.windowText a).trim.isEmpty) = false := by
        simp [hv]
      rw [hb]
      simp only [Bool.false_eq_true, if_false]
      exact ih

/-- C6: `enumerate_windows` returns exactly the windows that are visible
and have a non-empty title after trimming whitespace — as a multiset, its
output is the visible-and-titled sublist of the enumeration — and the
output is sorted ascending by the case-lowered title.  Both conjuncts are
unconditional in the environment, so when no window qualifies the filter
is empty and the result is the empty list, returned normally. -/
theorem enumerate_windows_spec (env : EnumEnv) :
    (enumerate_windows env).Perm
        ((env.hwnds.filter (fun h => env.visible h && !(env.windowText h).trim.isEmpty)).map
          (fun h => ({ hwnd := h, title := env.windowText h } : WindowInfo)))
      ∧ List.Pairwise (fun a b : WindowInfo => a.title.toLower ≤ b.title.toLower)
          (enumerate_windows env) := by
  constructor
  · simp only [enumerate_windows]
    rw [← enumerate_collect_eq env env.hwnds]
    exact List.mergeSort_perm _ _
  · have hs := @List.sorted_mergeSort WindowInfo
      (fun a b : WindowInfo => decide (a.title.toLower ≤ b.title.toLower))
      (fun a b c hab hbc => by
        simp only [decide_eq_true_eq] at hab hbc ⊢
        exact le_trans hab hbc)
      (fun a b => by
        simp only [Bool.or_eq_true, decide_eq_true_eq]
        exact le_total _ _)
      (env.hwnds.filterMap (fun h =>
        if env.visible h then
          let title := env.windowText h
          if title.trim ≠ "" then some { hwnd := h, title := title } else none
        else none))
    simp only [enumerate_windows]
    exact hs.imp (fun h => of_decide_eq_true h)

/-! ## Start validation and the one-shot position hotkey -/

/-- C7: when no window is selected, or no click position is selected, or
the selected window fails the `IsWindow` check, `_start_clicking` rejects
the start synchronously: the outcome is one of the warning returns (never
the start path), the application state is returned unchanged — in
particular `is_running` stays false, i.e. the loop remains Idle — and the
clicking thread is not started. -/
theorem start_clicking_rejects_invalid (valid : Int → Bool) (s : AppState)
    (hidle : s.is_running = false)
    (hbad : s.selected_window = none ∨ s.click_position = none ∨
      ∃ w, s.selected_window = some w ∧ valid w.hwnd = false) :
    (start_clicking valid s).1 ≠ StartOutcome.started ∧
    (start_clicking valid s).2.1 = s ∧
    (start_clicking valid s).2.1.is_running = false ∧
    (start_clicking valid s).2.2 = false := by
  rcases hbad with hw | hp | ⟨w, hw, hv⟩
  · simp [start_clicking, hw, hidle]
  · cases hsel : s.selected_window with
    | none => simp [start_clicking, hsel, hidle]
    | some w => simp [start_clicking, hsel, hp, hidle]
  · cases hpos : s.click_position with
    | none => simp [start_clicking, hw, hpos, hidle]
    | some p => simp [start_clicking, hw, hpos, hv, hidle]

/-- Witness for C7: an Idle state with no selection is rejected without
starting the thread. -/
theorem start_clicking_rejects_invalid_witness :
    (start_clicking (fun _ => true) idleEmptyState).1 ≠ StartOutcome.started ∧
    (start_clicking (fun _ => true) idleEmptyState).2.1 = idleEmptyState ∧
    (start_clicking (fun _ => true) idleEmptyState).2.1.is_running = false ∧
    (start_clicking (fun _ => true) idleEmptyState).2.2 = false :=
  start_clicking_rejects_invalid (fun _ => true) idleEmptyState rfl (Or.inl rfl)

/-- C9: arming position selection and then activating the hotkey twice
samples the cursor exactly once.  The first activation stores the first
cursor sample as the click position and disarms the trigger (and removes
the global hotkey registration); the second activation, arriving before
any re-arm, is a strict no-op on the state, so the second cursor sample is
never stored. -/
theorem position_hotkey_fires_once (s : AppState) (c1 c2 : Int × Int) :
    (handle_position_hotkey c1 (start_position_selection s)).click_position
        = some { x := c1.1, y := c1.2 } ∧
    (handle_position_hotkey c1 (start_position_selection s)).position_selection_active
        = false ∧
    (handle_position_hotkey c1 (start_position_selection s)).hotkey_registered
        = false ∧
    handle_position_hotkey c2 (handle_position_hotkey c1 (start_position_selection s))
        = handle_position_hotkey c1 (start_position_selection s) := by
  by_cases h : s.position_selection_active <;>
    simp [start_position_selection, handle_position_hotkey, h]

end FingerOfGod
